import Mathlib

/-
Shallow embedding of the payment lifecycle engine of the repository
(src/services/PaymentService.ts, src/services/PayoutRetryService.ts,
src/services/LedgerService.ts, src/services/WalletService.ts and the
sequelize models they use).  Monetary amounts are DECIMAL(19,4) columns
manipulated with exact additive arithmetic, embedded here as rationals.
Database state is embedded as lists of rows; a sequelize transaction is
embedded by building the candidate post-state and either committing it
(returning it) or rolling it back (returning the pre-state, keeping only
the writes that the code performs outside the transaction).  Each
operation additionally returns the list of primitive money-movement
events it executed, in program order, so that pairing and ordering
properties can be stated.
-/

namespace PaySpec

abbrev Amount := ℚ

/-- The settings.currency constant (config/settings.ts, DEFAULT_CURRENCY fallback). -/
def settingsCurrency : String := "USD"

/-- Payment.status values that the lifecycle engine writes
(models/Payment.ts / PaymentService.ts). -/
inductive PaymentStatus
  | PENDING
  | COMPLETED
  | REFUNDED
  deriving DecidableEq, Repr

/-- Row of the payments table (models/Payment.ts), restricted to the columns
the lifecycle engine reads or writes. -/
structure Payment where
  id : Nat
  user_id : String
  amount : Amount
  service_fee : Amount
  commission : Amount
  currency : String
  status : PaymentStatus
  related_task_id : String
  stripe_payment_intent_id : Option String
  deriving DecidableEq, Repr

/-- Row of the wallets table (models/Wallet.ts). -/
structure Wallet where
  id : Nat
  external_user_id : String
  available_balance : Amount
  pending_balance : Amount
  escrow_balance : Amount
  stripe_account_id : Option String
  deriving DecidableEq, Repr

/-- The singleton platform_accounts row (models/PlatformAccount.ts). -/
structure PlatformAccount where
  balance : Amount
  pending_balance : Amount
  total_revenue : Amount
  deriving DecidableEq, Repr

/-- Row of the transactions table, the double-entry ledger
(models/Transaction.ts, written through LedgerService.record). -/
structure LedgerEntry where
  from_wallet_id : Option Nat
  to_wallet_id : Option Nat
  platform_account_id : Option Nat
  amount : Amount
  currency : String
  type : String
  status : String
  reference_id : Option Nat
  deriving DecidableEq, Repr

/-- Row of the payouts table (models/Payout.ts) — the immutable payout audit
record written on a successful transfer. -/
structure Payout where
  external_user_id : String
  wallet_id : Nat
  amount : Amount
  currency : String
  method : String
  status : String
  stripe_payout_id : String
  related_task_id : String
  deriving DecidableEq, Repr

/-- Row of the pending_payouts table (models/PendingPayout.ts) — payouts queued
because the tasker has no Stripe Connect account. -/
structure PendingPayout where
  task_id : String
  user_id : String
  amount : Amount
  currency : String
  status : String
  deriving DecidableEq, Repr

/-- Row of the failed_payout_requests table (models/FailedPayout.ts) — the
retryable Failure Record variant. -/
structure FailedPayout where
  id : Nat
  task_id : String
  user_id : String
  stripe_connect_account_id : String
  amount : Amount
  currency : String
  error_code : String
  last_error_message : String
  status : String
  retry_count : Nat
  deriving DecidableEq, Repr

/-- Row of the failed_requests_admin_review table
(models/FailedRequestAdminReview.ts) — the admin-review Failure Record
variant. -/
structure AdminReviewRecord where
  id : Nat
  task_id : String
  user_id : String
  stripe_connect_account_id : String
  amount : Amount
  currency : String
  error_code : String
  last_error_message : String
  status : String
  deriving DecidableEq, Repr

/-- Row of the failed refund requests table (models/FailedRefundRequest.ts),
written by recordFailedRefund in PaymentService.ts. -/
structure FailedRefundRequest where
  payment_id : Nat
  task_id : String
  user_id : String
  amount : Amount
  currency : String
  stripe_payment_intent_id : Option String
  action : String
  error_code : String
  error_message : String
  status : String
  retry_count : Nat
  deriving DecidableEq, Repr

/-- The database state seen by the services.  knownErrorCodes embeds the
stripe_error_codes allow-list table (models/StripeErrorCode.ts).  nextId
supplies fresh primary keys. -/
structure DB where
  payments : List Payment
  wallets : List Wallet
  platform : Option PlatformAccount
  ledger : List LedgerEntry
  payouts : List Payout
  pendingPayouts : List PendingPayout
  failedPayouts : List FailedPayout
  adminReviews : List AdminReviewRecord
  failedRefunds : List FailedRefundRequest
  knownErrorCodes : List String
  nextId : Nat
  deriving DecidableEq, Repr

/-- Outcome of a Stripe API call (transfer or refund): the returned object id,
or a structured error with code and message. -/
inductive GwOutcome
  | ok (objId : String)
  | err (code msg : String)
  deriving DecidableEq, Repr

/-- The external settlement gateway (StripeService.ts): outcome of
createTransfer and createRefund as a function of the requested amount. -/
structure Gateway where
  transfer : Amount → GwOutcome
  refund : Amount → GwOutcome

/-- A gateway whose outcomes do not depend on the requested amount. -/
def gwConst (tr rf : GwOutcome) : Gateway :=
  { transfer := fun _ => tr, refund := fun _ => rf }

/-- Application-level error (utils/AppError.ts): message and HTTP status. -/
structure AppErr where
  message : String
  httpStatus : Nat
  deriving DecidableEq, Repr

/-- Primitive money-movement events, in program order: an atomic
increment/decrement of a balance column issued inside the database
transaction (delta signed as issued), a ledger row appended inside the
transaction, and the external gateway calls. -/
inductive Ev
  | mutate (account field : String) (delta : Amount)
  | ledgerAppend (e : LedgerEntry)
  | gwTransfer (amount : Amount)
  | gwRefund (amount : Amount)
  deriving DecidableEq, Repr

/-- Test for the balance-mutation event. -/
def Ev.isMutate : Ev → Bool
  | .mutate _ _ _ => true
  | _ => false

/-- Test for the ledger-append event. -/
def Ev.isLedgerAppend : Ev → Bool
  | .ledgerAppend _ => true
  | _ => false

/-- Test for the gateway-refund event. -/
def Ev.isGwRefund : Ev → Bool
  | .gwRefund _ => true
  | _ => false

/-- Test for the gateway-transfer event. -/
def Ev.isGwTransfer : Ev → Bool
  | .gwTransfer _ => true
  | _ => false

/-- Replace the wallet row with the same primary key (instance.save /
increment / decrement target the row by id). -/
def updateWallet (db : DB) (w : Wallet) : DB :=
  { db with wallets := db.wallets.map (fun x => if x.id = w.id then w else x) }

/-- Overwrite the singleton platform account row (companyAccount.save). -/
def setPlatform (db : DB) (pa : PlatformAccount) : DB :=
  { db with platform := some pa }

/-- WalletService.getOrCreate: find the wallet by external_user_id, else
create one with zero balances and no Stripe account. -/
def walletGetOrCreate (db : DB) (extId : String) : DB × Wallet :=
  match db.wallets.find? (fun w => decide (w.external_user_id = extId)) with
  | some w => (db, w)
  | none =>
      let w : Wallet :=
        { id := db.nextId, external_user_id := extId,
          available_balance := 0, pending_balance := 0, escrow_balance := 0,
          stripe_account_id := none }
      ({ db with wallets := db.wallets ++ [w], nextId := db.nextId + 1 }, w)

/-- Result value of PaymentService.createTaskPayment. -/
structure CreateResult where
  paymentId : Nat
  tasker_pending : Amount
  company_pending : Amount
  deriving DecidableEq, Repr

/-- PaymentService.createTaskPayment: duplicate check, then in one
transaction create the PENDING payment, increment the tasker wallet's
pending_balance, increment the platform account's pending_balance
(findOrCreate), and append the two PENDING ledger entries. -/
def createTaskPayment (db0 : DB) (task_price commission service_fee : Amount)
    (tasker_id poster_id task_id : String) (payment_intent : Option String) :
    DB × List Ev × Except AppErr CreateResult :=
  match db0.payments.find? (fun p => decide (p.related_task_id = task_id)) with
  | some _ => (db0, [], .error ⟨"Payment already exists for this task.", 409⟩)
  | none =>
      let taskerPendingAmount := task_price - commission
      let companyPendingAmount := commission + service_fee
      let totalAmount := task_price + service_fee
      let payment : Payment :=
        { id := db0.nextId, user_id := poster_id, amount := totalAmount,
          service_fee := service_fee, commission := commission,
          currency := settingsCurrency, status := .PENDING,
          related_task_id := task_id, stripe_payment_intent_id := payment_intent }
      let db1 := { db0 with payments := db0.payments ++ [payment], nextId := db0.nextId + 1 }
      let (db2, taskerWallet) := walletGetOrCreate db1 tasker_id
      let tw1 := { taskerWallet with
                    pending_balance := taskerWallet.pending_balance + taskerPendingAmount }
      let db3 := updateWallet db2 tw1
      let pa0 := db3.platform.getD { balance := 0, pending_balance := 0, total_revenue := 0 }
      let pa1 := { pa0 with pending_balance := pa0.pending_balance + companyPendingAmount }
      let db4 := { db3 with platform := some pa1 }
      let e1 : LedgerEntry :=
        { from_wallet_id := none, to_wallet_id := some taskerWallet.id,
          platform_account_id := none, amount := taskerPendingAmount,
          currency := settingsCurrency, type := "EARNING_PENDING",
          status := "PENDING", reference_id := some payment.id }
      let e2 : LedgerEntry :=
        { from_wallet_id := none, to_wallet_id := none,
          platform_account_id := some 0, amount := companyPendingAmount,
          currency := settingsCurrency, type := "FEE_PENDING",
          status := "PENDING", reference_id := some payment.id }
      let db5 := { db4 with ledger := db4.ledger ++ [e1, e2] }
      (db5,
       [.mutate "tasker" "pending_balance" taskerPendingAmount,
        .mutate "platform" "pending_balance" companyPendingAmount,
        .ledgerAppend e1, .ledgerAppend e2],
       .ok { paymentId := payment.id, tasker_pending := taskerPendingAmount,
             company_pending := companyPendingAmount })

/-- Update the first list element satisfying the predicate (findOne + save). -/
def updateFirst (p : α → Bool) (f : α → α) : List α → List α
  | [] => []
  | a :: l => if p a then f a :: l else a :: updateFirst p f l

/-- PayoutRetryService.checkAndQueue: classify the gateway error code against
the allow-list; upsert (dedup by task id) a retryable FailedPayout when known,
an admin-review record when unknown.  Runs with transaction null, so it acts
on the committed database state. -/
def checkAndQueue (db : DB) (taskId userId stripeAccountId : String)
    (amount : Amount) (currency errCode errMsg : String) : DB :=
  if db.knownErrorCodes.contains errCode then
    if (db.failedPayouts.find? (fun f => decide (f.task_id = taskId))).isSome then
      let upd := updateFirst (fun f => decide (f.task_id = taskId)) (fun f => { f with status := "PENDING", error_code := errCode, last_error_message := errMsg, retry_count := 0 }) db.failedPayouts
      { db with failedPayouts := upd }
    else
      { db with
          failedPayouts := db.failedPayouts ++
            [{ id := db.nextId, task_id := taskId, user_id := userId,
               stripe_connect_account_id := stripeAccountId, amount := amount,
               currency := currency, error_code := errCode,
               last_error_message := errMsg, status := "PENDING", retry_count := 0 }],
          nextId := db.nextId + 1 }
  else
    if (db.adminReviews.find? (fun f => decide (f.task_id = taskId))).isSome then
      let upd := updateFirst (fun f => decide (f.task_id = taskId)) (fun f => { f with status := "ADMIN_REVIEW_REQUIRED", error_code := errCode, last_error_message := errMsg }) db.adminReviews
      { db with adminReviews := upd }
    else
      { db with
          adminReviews := db.adminReviews ++
            [{ id := db.nextId, task_id := taskId, user_id := userId,
               stripe_connect_account_id := stripeAccountId, amount := amount,
               currency := currency, error_code := errCode,
               last_error_message := errMsg, status := "ADMIN_REVIEW_REQUIRED" }],
          nextId := db.nextId + 1 }

/-- The recordFailedRefund helper of PaymentService.ts: persist a
FailedRefundRequest outside the lifecycle transaction. -/
def recordFailedRefund (db : DB) (payment : Payment) (task_id user_id : String)
    (amount : Amount) (action errCode errMsg : String) : DB :=
  { db with failedRefunds := db.failedRefunds ++
      [{ payment_id := payment.id, task_id := task_id, user_id := user_id,
         amount := amount, currency := payment.currency,
         stripe_payment_intent_id := payment.stripe_payment_intent_id,
         action := action, error_code := errCode, error_message := errMsg,
         status := "PENDING", retry_count := 0 }] }

/-- Transaction.update on status for every ledger row referencing the payment. -/
def setLedgerStatusFor (db : DB) (pid : Nat) (s : String) : DB :=
  let l := db.ledger.map (fun e => if e.reference_id = some pid then { e with status := s } else e)
  { db with ledger := l }

/-- payment.save after assigning payment.status. -/
def setPaymentStatusById (db : DB) (pid : Nat) (s : PaymentStatus) : DB :=
  let l := db.payments.map (fun p => if p.id = pid then { p with status := s } else p)
  { db with payments := l }

/-- The four action strings accepted by PaymentService.handleTaskAction. -/
inductive Action
  | COMPLETE
  | CANCEL
  | CANCEL_FULL
  | REFUND
  deriving DecidableEq, Repr

/-- Result value of PaymentService.handleTaskAction. -/
structure ActionResult where
  success : Bool
  status : String
  refund_amount : Option Amount
  fee_kept : Option Amount
  penalty : Option Amount
  deriving DecidableEq, Repr

/-- The COMPLETE branch of handleTaskAction: move held amounts from pending to
available and platform balance, then either queue the payout (no Stripe
account), or call the gateway with the reloaded available balance when it is
positive.  On gateway failure the transaction is rolled back and only the
independently persisted Failure Record survives. -/
def completeAction (gw : Gateway) (db0 : DB) (task_id : String)
    (payment : Payment) (taskerWallet : Wallet) (companyAccount : PlatformAccount)
    (taskerPendingAmount companyPendingAmount : Amount) :
    DB × List Ev × Except AppErr ActionResult :=
  let tw1 := { taskerWallet with
      pending_balance := taskerWallet.pending_balance - taskerPendingAmount,
      available_balance := taskerWallet.available_balance + taskerPendingAmount }
  let pa1 : PlatformAccount :=
    { balance := companyAccount.balance + companyPendingAmount,
      pending_balance := companyAccount.pending_balance - companyPendingAmount,
      total_revenue := companyAccount.total_revenue + companyPendingAmount }
  let ev1 : List Ev :=
    [.mutate "tasker" "pending_balance" (-taskerPendingAmount),
     .mutate "tasker" "available_balance" taskerPendingAmount,
     .mutate "platform" "pending_balance" (-companyPendingAmount),
     .mutate "platform" "balance" companyPendingAmount,
     .mutate "platform" "total_revenue" companyPendingAmount]
  let db1 := setPlatform (updateWallet db0 tw1) pa1
  match taskerWallet.stripe_account_id with
  | none =>
      let db2 := { db1 with pendingPayouts := db1.pendingPayouts ++
          [{ task_id := task_id, user_id := taskerWallet.external_user_id,
             amount := taskerPendingAmount, currency := settingsCurrency,
             status := "PENDING" }] }
      let db3 := setPaymentStatusById (setLedgerStatusFor db2 payment.id "COMPLETED")
                   payment.id .COMPLETED
      (db3, ev1,
       .ok { success := true, status := "PAYOUT_QUEUED",
             refund_amount := none, fee_kept := none, penalty := none })
  | some acct =>
      let payoutAmount := tw1.available_balance
      if payoutAmount > 0 then
        match gw.transfer payoutAmount with
        | .ok transferId =>
            let tw2 := { tw1 with available_balance := tw1.available_balance - payoutAmount }
            let db2 := updateWallet db1 tw2
            let db3 := { db2 with payouts := db2.payouts ++
                [{ external_user_id := taskerWallet.external_user_id,
                   wallet_id := taskerWallet.id, amount := payoutAmount,
                   currency := settingsCurrency, method := "BANK",
                   status := "COMPLETED", stripe_payout_id := transferId,
                   related_task_id := task_id }] }
            let db4 := setPaymentStatusById (setLedgerStatusFor db3 payment.id "COMPLETED")
                         payment.id .COMPLETED
            (db4,
             ev1 ++ [.gwTransfer payoutAmount,
                     .mutate "tasker" "available_balance" (-payoutAmount)],
             .ok { success := true, status := "COMPLETED",
                   refund_amount := none, fee_kept := none, penalty := none })
        | .err code msg =>
            let dbF := checkAndQueue db0 task_id taskerWallet.external_user_id acct
                         tw1.available_balance settingsCurrency code msg
            (dbF, ev1 ++ [.gwTransfer payoutAmount], .error ⟨msg, 502⟩)
      else
        let db3 := setPaymentStatusById (setLedgerStatusFor db1 payment.id "COMPLETED")
                     payment.id .COMPLETED
        (db3, ev1,
         .ok { success := true, status := "COMPLETED",
               refund_amount := none, fee_kept := none, penalty := none })

/-- Balance reversal, status updates and commit of the CANCEL branch, entered
after the gateway refund succeeded or was skipped for lack of a payment
intent. -/
def cancelApply (db0 : DB) (payment : Payment) (taskerWallet : Wallet)
    (companyAccount : PlatformAccount)
    (taskerPendingAmount companyPendingAmount : Amount) (pre : List Ev) :
    DB × List Ev × Except AppErr ActionResult :=
  let refundAmount := payment.amount - payment.service_fee
  let feePart := payment.service_fee
  let (db1, evs) :=
    match payment.status with
    | .PENDING =>
        let tw1 := { taskerWallet with
            pending_balance := taskerWallet.pending_balance - taskerPendingAmount }
        let pa1 : PlatformAccount :=
          { balance := companyAccount.balance + feePart,
            pending_balance := companyAccount.pending_balance - companyPendingAmount,
            total_revenue := companyAccount.total_revenue + feePart }
        (setPlatform (updateWallet db0 tw1) pa1,
         pre ++ [Ev.mutate "tasker" "pending_balance" (-taskerPendingAmount),
                 Ev.mutate "platform" "pending_balance" (-companyPendingAmount),
                 Ev.mutate "platform" "balance" feePart,
                 Ev.mutate "platform" "total_revenue" feePart])
    | .COMPLETED =>
        let commissionPart := payment.commission
        let tw1 := { taskerWallet with
            available_balance := taskerWallet.available_balance - taskerPendingAmount }
        let pa1 : PlatformAccount :=
          { balance := companyAccount.balance - commissionPart,
            pending_balance := companyAccount.pending_balance,
            total_revenue := companyAccount.total_revenue - commissionPart }
        (setPlatform (updateWallet db0 tw1) pa1,
         pre ++ [Ev.mutate "tasker" "available_balance" (-taskerPendingAmount),
                 Ev.mutate "platform" "balance" (-commissionPart),
                 Ev.mutate "platform" "total_revenue" (-commissionPart)])
    | .REFUNDED => (db0, pre)
  let db2 := setPaymentStatusById (setLedgerStatusFor db1 payment.id "CANCELLED")
               payment.id .REFUNDED
  (db2, evs,
   .ok { success := true, status := "CANCELLED",
         refund_amount := some refundAmount, fee_kept := some feePart,
         penalty := none })

/-- The CANCEL branch of handleTaskAction: partial refund keeping the service
fee; the gateway refund is issued first when a payment intent exists, and a
FailedRefundRequest survives the rollback when the gateway throws. -/
def cancelAction (gw : Gateway) (db0 : DB) (task_id poster_id : String)
    (payment : Payment) (taskerWallet : Wallet) (companyAccount : PlatformAccount)
    (taskerPendingAmount companyPendingAmount : Amount) :
    DB × List Ev × Except AppErr ActionResult :=
  let refundAmount := payment.amount - payment.service_fee
  match payment.stripe_payment_intent_id with
  | some _ =>
      match gw.refund refundAmount with
      | .ok _ =>
          cancelApply db0 payment taskerWallet companyAccount
            taskerPendingAmount companyPendingAmount [.gwRefund refundAmount]
      | .err code msg =>
          let dbF := recordFailedRefund db0 payment task_id poster_id refundAmount
                       "CANCEL" code msg
          (dbF, [.gwRefund refundAmount],
           .error ⟨"Stripe refund failed: " ++ msg, 502⟩)
  | none =>
      cancelApply db0 payment taskerWallet companyAccount
        taskerPendingAmount companyPendingAmount []

/-- Balance reversal, penalty, status updates and commit of the CANCEL_FULL
branch, entered after the gateway refund succeeded or was skipped. -/
def cancelFullApply (db0 : DB) (payment : Payment) (taskerWallet : Wallet)
    (companyAccount : PlatformAccount)
    (taskerPendingAmount companyPendingAmount : Amount) (pre : List Ev) :
    DB × List Ev × Except AppErr ActionResult :=
  let penalty := payment.commission
  let (tw1, pa1, evs) :=
    match payment.status with
    | .PENDING =>
        ({ taskerWallet with
             pending_balance := taskerWallet.pending_balance - taskerPendingAmount },
         { companyAccount with
             pending_balance := companyAccount.pending_balance - companyPendingAmount },
         pre ++ [Ev.mutate "tasker" "pending_balance" (-taskerPendingAmount),
                 Ev.mutate "platform" "pending_balance" (-companyPendingAmount)])
    | .COMPLETED =>
        ({ taskerWallet with
             available_balance := taskerWallet.available_balance - taskerPendingAmount },
         { companyAccount with
             balance := companyAccount.balance - companyPendingAmount,
             total_revenue := companyAccount.total_revenue - companyPendingAmount },
         pre ++ [Ev.mutate "tasker" "available_balance" (-taskerPendingAmount),
                 Ev.mutate "platform" "balance" (-companyPendingAmount),
                 Ev.mutate "platform" "total_revenue" (-companyPendingAmount)])
    | .REFUNDED => (taskerWallet, companyAccount, pre)
  let tw2 := { tw1 with available_balance := tw1.available_balance - penalty }
  let pa2 := { pa1 with balance := pa1.balance + penalty,
                        total_revenue := pa1.total_revenue + penalty }
  let evs2 := evs ++ [Ev.mutate "tasker" "available_balance" (-penalty),
                      Ev.mutate "platform" "balance" penalty,
                      Ev.mutate "platform" "total_revenue" penalty]
  let db1 := setPlatform (updateWallet db0 tw2) pa2
  let db2 := setPaymentStatusById (setLedgerStatusFor db1 payment.id "CANCELLED")
               payment.id .REFUNDED
  (db2, evs2,
   .ok { success := true, status := "CANCELLED_FULL",
         refund_amount := some payment.amount, fee_kept := none,
         penalty := some penalty })

/-- The CANCEL_FULL branch of handleTaskAction: full refund plus tasker
penalty, gateway-first. -/
def cancelFullAction (gw : Gateway) (db0 : DB) (task_id poster_id : String)
    (payment : Payment) (taskerWallet : Wallet) (companyAccount : PlatformAccount)
    (taskerPendingAmount companyPendingAmount : Amount) :
    DB × List Ev × Except AppErr ActionResult :=
  match payment.stripe_payment_intent_id with
  | some _ =>
      match gw.refund payment.amount with
      | .ok _ =>
          cancelFullApply db0 payment taskerWallet companyAccount
            taskerPendingAmount companyPendingAmount [.gwRefund payment.amount]
      | .err code msg =>
          let dbF := recordFailedRefund db0 payment task_id poster_id payment.amount
                       "CANCEL_FULL" code msg
          (dbF, [.gwRefund payment.amount],
           .error ⟨"Stripe refund failed: " ++ msg, 502⟩)
  | none =>
      cancelFullApply db0 payment taskerWallet companyAccount
        taskerPendingAmount companyPendingAmount []

/-- The REFUND branch of handleTaskAction: full gateway refund, required
payment intent, no penalty, no fee retention. -/
def refundAction (gw : Gateway) (db0 : DB) (task_id poster_id : String)
    (payment : Payment) (taskerWallet : Wallet) (companyAccount : PlatformAccount)
    (taskerPendingAmount companyPendingAmount : Amount) :
    DB × List Ev × Except AppErr ActionResult :=
  match payment.stripe_payment_intent_id with
  | none =>
      (db0, [], .error ⟨"No Stripe Payment Intent found. Cannot process refund.", 400⟩)
  | some _ =>
      match gw.refund payment.amount with
      | .err code msg =>
          let dbF := recordFailedRefund db0 payment task_id poster_id payment.amount
                       "REFUND" code msg
          (dbF, [.gwRefund payment.amount],
           .error ⟨"Stripe refund failed: " ++ msg, 502⟩)
      | .ok _ =>
          let (tw1, pa1, evs) :=
            match payment.status with
            | .PENDING =>
                ({ taskerWallet with
                     pending_balance := taskerWallet.pending_balance - taskerPendingAmount },
                 { companyAccount with
                     pending_balance := companyAccount.pending_balance - companyPendingAmount },
                 [Ev.gwRefund payment.amount,
                  Ev.mutate "tasker" "pending_balance" (-taskerPendingAmount),
                  Ev.mutate "platform" "pending_balance" (-companyPendingAmount)])
            | .COMPLETED =>
                ({ taskerWallet with
                     available_balance := taskerWallet.available_balance - taskerPendingAmount },
                 { companyAccount with
                     balance := companyAccount.balance - companyPendingAmount,
                     total_revenue := companyAccount.total_revenue - companyPendingAmount },
                 [Ev.gwRefund payment.amount,
                  Ev.mutate "tasker" "available_balance" (-taskerPendingAmount),
                  Ev.mutate "platform" "balance" (-companyPendingAmount),
                  Ev.mutate "platform" "total_revenue" (-companyPendingAmount)])
            | .REFUNDED => (taskerWallet, companyAccount, [Ev.gwRefund payment.amount])
          let db1 := setPlatform (updateWallet db0 tw1) pa1
          let db2 := setPaymentStatusById (setLedgerStatusFor db1 payment.id "REFUNDED")
                       payment.id .REFUNDED
          (db2, evs,
           .ok { success := true, status := "REFUNDED",
                 refund_amount := some payment.amount, fee_kept := none,
                 penalty := none })

/-- PaymentService.handleTaskAction: select the payment (PENDING only for
COMPLETE; latest PENDING-or-COMPLETED for the refund-class actions), trace the
tasker wallet through the EARNING_PENDING ledger entry, load the platform
account, and dispatch on the action. -/
def handleTaskAction (gw : Gateway) (db0 : DB) (task_id poster_id : String)
    (action : Action) : DB × List Ev × Except AppErr ActionResult :=
  let paymentOpt : Option Payment :=
    match action with
    | .COMPLETE =>
        db0.payments.find? (fun p =>
          decide (p.related_task_id = task_id) && decide (p.status = .PENDING))
    | _ =>
        (db0.payments.filter (fun p =>
          decide (p.related_task_id = task_id) &&
            (decide (p.status = .PENDING) || decide (p.status = .COMPLETED)))).getLast?
  match paymentOpt with
  | none =>
      match action with
      | .COMPLETE => (db0, [], .error ⟨"No pending payment found for this task.", 404⟩)
      | _ =>
          if (db0.payments.find? (fun p =>
                decide (p.related_task_id = task_id) &&
                  decide (p.status = .REFUNDED))).isSome then
            (db0, [], .error ⟨"Payment for this task has already been refunded.", 400⟩)
          else
            (db0, [], .error ⟨"No payment found for this task.", 404⟩)
  | some payment =>
      let taskerPendingAmount :=
        payment.amount - payment.service_fee - payment.commission
      let companyPendingAmount := payment.commission + payment.service_fee
      match (db0.ledger.find? (fun e =>
          decide (e.reference_id = some payment.id) &&
            decide (e.type = "EARNING_PENDING"))).bind (fun e => e.to_wallet_id) with
      | none => (db0, [], .error ⟨"Tasker wallet trace failed.", 500⟩)
      | some wid =>
          match db0.wallets.find? (fun w => decide (w.id = wid)) with
          | none => (db0, [], .error ⟨"Tasker wallet not found.", 404⟩)
          | some taskerWallet =>
              match db0.platform with
              | none => (db0, [], .error ⟨"Company account not found.", 500⟩)
              | some companyAccount =>
                  match action with
                  | .COMPLETE =>
                      completeAction gw db0 task_id payment taskerWallet
                        companyAccount taskerPendingAmount companyPendingAmount
                  | .CANCEL =>
                      cancelAction gw db0 task_id poster_id payment taskerWallet
                        companyAccount taskerPendingAmount companyPendingAmount
                  | .CANCEL_FULL =>
                      cancelFullAction gw db0 task_id poster_id payment taskerWallet
                        companyAccount taskerPendingAmount companyPendingAmount
                  | .REFUND =>
                      refundAction gw db0 task_id poster_id payment taskerWallet
                        companyAccount taskerPendingAmount companyPendingAmount

/-- Counters returned by PayoutRetryService.retryPayouts. -/
structure RetryResults where
  processed : Nat
  success : Nat
  failed : Nat
  deriving DecidableEq, Repr

/-- Update the failed_payout_requests row with the given primary key. -/
def updateFailedPayoutById (db : DB) (fid : Nat) (f : FailedPayout → FailedPayout) : DB :=
  { db with failedPayouts := db.failedPayouts.map (fun x => if x.id = fid then f x else x) }

/-- Body of the retryPayouts loop for one record: mark FAILED when the wallet
is missing, otherwise re-invoke the gateway with the record's stored amount;
mark SUCCESS on success, increment retry_count on failure. -/
def retryOne (gw : Gateway) : DB × RetryResults → FailedPayout → DB × RetryResults
  | (db, res), rec =>
    match db.wallets.find? (fun w => decide (w.external_user_id = rec.user_id)) with
    | none =>
        (updateFailedPayoutById db rec.id
           (fun f => { f with status := "FAILED", last_error_message := "Wallet not found" }),
         { processed := res.processed + 1, success := res.success, failed := res.failed + 1 })
    | some _ =>
        match gw.transfer rec.amount with
        | .ok _ =>
            (updateFailedPayoutById db rec.id (fun f => { f with status := "SUCCESS" }),
             { processed := res.processed + 1, success := res.success + 1, failed := res.failed })
        | .err code msg =>
            (updateFailedPayoutById db rec.id
               (fun f => { f with retry_count := f.retry_count + 1,
                                  last_error_message := msg, error_code := code }),
             { processed := res.processed + 1, success := res.success, failed := res.failed + 1 })

/-- PayoutRetryService.retryPayouts: fetch at most 50 PENDING records and
process them sequentially. -/
def retryPayouts (gw : Gateway) (db : DB) : DB × RetryResults :=
  ((db.failedPayouts.filter (fun f => decide (f.status = "PENDING"))).take 50).foldl
    (retryOne gw) (db, { processed := 0, success := 0, failed := 0 })

/-
Scenario family used to state the claims: one tasker wallet "u" (wallet id 0)
with arbitrary starting balances, the singleton platform account with
arbitrary starting balances, and the allow-list containing the known Stripe
error code "card_declined".  All amounts are symbolic rationals.
-/

/-- Initial database of the scenario family, before any payment exists. -/
def baseDB (preAvail prePend pb pp pr : Amount) (acct : Option String) : DB :=
  { payments := [],
    wallets := [{ id := 0, external_user_id := "u", available_balance := preAvail,
                  pending_balance := prePend, escrow_balance := 0,
                  stripe_account_id := acct }],
    platform := some { balance := pb, pending_balance := pp, total_revenue := pr },
    ledger := [], payouts := [], pendingPayouts := [], failedPayouts := [],
    adminReviews := [], failedRefunds := [], knownErrorCodes := ["card_declined"],
    nextId := 1 }

/-- State after a successful createTaskPayment for task "t" (poster "p",
tasker "u") on the base state: the PENDING hold is in place. -/
def heldDB (price comm fee preAvail prePend pb pp pr : Amount)
    (acct pi : Option String) : DB :=
  (createTaskPayment (baseDB preAvail prePend pb pp pr acct) price comm fee
    "u" "p" "t" pi).1

/-- State after COMPLETE on a held payment whose tasker has no Stripe account
(queued-payout path): the Payment is COMPLETED and the released funds sit in
the tasker's available balance. -/
def completedDB (price comm fee preAvail prePend pb pp pr : Amount)
    (pi : Option String) : DB :=
  (handleTaskAction (gwConst (.ok "tr_0") (.ok "re_0"))
    (heldDB price comm fee preAvail prePend pb pp pr none pi) "t" "p" .COMPLETE).1

/-- Available balance of the tasker wallet "u". -/
def availOf (db : DB) : Amount :=
  ((db.wallets.find? (fun w => decide (w.external_user_id = "u"))).map
    Wallet.available_balance).getD 0

/-- Pending balance of the tasker wallet "u". -/
def pendingOf (db : DB) : Amount :=
  ((db.wallets.find? (fun w => decide (w.external_user_id = "u"))).map
    Wallet.pending_balance).getD 0

/-- Balance of the platform account. -/
def platBalanceOf (db : DB) : Amount :=
  (db.platform.map PlatformAccount.balance).getD 0

/-- Pending balance of the platform account. -/
def platPendingOf (db : DB) : Amount :=
  (db.platform.map PlatformAccount.pending_balance).getD 0

/-- Cumulative revenue of the platform account. -/
def platRevenueOf (db : DB) : Amount :=
  (db.platform.map PlatformAccount.total_revenue).getD 0

/-- Status of the payment stored for a task id. -/
def paymentStatusFor (db : DB) (tk : String) : Option PaymentStatus :=
  (db.payments.find? (fun p => decide (p.related_task_id = tk))).map Payment.status

/-- Number of payout audit records stored for a task id. -/
def payoutCountFor (db : DB) (tk : String) : Nat :=
  (db.payouts.filter (fun o => decide (o.related_task_id = tk))).length

/-- Number of Failure Records (both variants: retryable failed payouts and
admin-review records) stored for a task id. -/
def failureRecordCount (db : DB) (tk : String) : Nat :=
  (db.failedPayouts.filter (fun f => decide (f.task_id = tk))).length +
    (db.adminReviews.filter (fun f => decide (f.task_id = tk))).length

/-- Number of pending-queue payout records stored for a task id. -/
def pendingPayoutCountFor (db : DB) (tk : String) : Nat :=
  (db.pendingPayouts.filter (fun o => decide (o.task_id = tk))).length

/-- Two-record retry scenario: two PENDING retryable Failure Records for
distinct tasks with stored amounts a1 and a2 and retry counts n1 and n2;
wallets exist for both users with zero balances. -/
def retryDB (a1 a2 : Amount) (n1 n2 : Nat) : DB :=
  { payments := [],
    wallets := [{ id := 0, external_user_id := "uA", available_balance := 0,
                  pending_balance := 0, escrow_balance := 0,
                  stripe_account_id := some "acctA" },
                { id := 1, external_user_id := "uB", available_balance := 0,
                  pending_balance := 0, escrow_balance := 0,
                  stripe_account_id := some "acctB" }],
    platform := some { balance := 0, pending_balance := 0, total_revenue := 0 },
    ledger := [], payouts := [], pendingPayouts := [],
    failedPayouts := [{ id := 10, task_id := "tA", user_id := "uA",
                        stripe_connect_account_id := "acctA", amount := a1,
                        currency := "USD", error_code := "card_declined",
                        last_error_message := "m1", status := "PENDING",
                        retry_count := n1 },
                      { id := 11, task_id := "tB", user_id := "uB",
                        stripe_connect_account_id := "acctB", amount := a2,
                        currency := "USD", error_code := "card_declined",
                        last_error_message := "m2", status := "PENDING",
                        retry_count := n2 }],
    adminReviews := [], failedRefunds := [], knownErrorCodes := ["card_declined"],
    nextId := 12 }

/-- The retryable Failure Record stored under a given primary key. -/
def failedPayoutById (db : DB) (fid : Nat) : Option FailedPayout :=
  db.failedPayouts.find? (fun f => decide (f.id = fid))

/-- Concrete gateway for the retry scenario: the transfer of amount 85 now
succeeds, any other amount still fails with the known decline code. -/
def gwC7 : Gateway :=
  { transfer := fun a =>
      if a = 85 then .ok "tr_r" else .err "card_declined" "still failing",
    refund := fun _ => .ok "re_1" }

/-- Concrete state in which the only payment for task "t" is terminal
(REFUNDED): the spec's concrete scenario held and then cancelled with a
purely internal refund. -/
def refundedDBc : DB :=
  (handleTaskAction (gwConst (.ok "tr_0") (.ok "re_0"))
    (heldDB 100 15 10 0 0 0 0 0 none none) "t" "p" .CANCEL).1

/-
Theorems.
-/

/-- General rollback property of createTaskPayment: whenever it returns an
error, the database is unchanged and no money-movement event was executed. -/
theorem createTaskPayment_error_rollback (db : DB) (tp cm sf : Amount)
    (tid pid tk : String) (pi : Option String) (e : AppErr)
    (h : (createTaskPayment db tp cm sf tid pid tk pi).2.2 = .error e) :
    (createTaskPayment db tp cm sf tid pid tk pi).1 = db ∧
      (createTaskPayment db tp cm sf tid pid tk pi).2.1 = [] := by
  cases hf : db.payments.find? (fun p => decide (p.related_task_id = tk)) with
  | none =>
      unfold createTaskPayment at h
      rw [hf] at h
      exact absurd h (by simp)
  | some p =>
      unfold createTaskPayment
      rw [hf]
      exact ⟨rfl, rfl⟩

/-- General duplicate-check characterisation of createTaskPayment: it returns
the 409 Conflict error exactly when some payment row (of any status) exists
for the task id. -/
theorem createTaskPayment_error_iff (db : DB) (tp cm sf : Amount)
    (tid pid tk : String) (pi : Option String) :
    (createTaskPayment db tp cm sf tid pid tk pi).2.2 =
        .error { message := "Payment already exists for this task.", httpStatus := 409 } ↔
      ∃ p ∈ db.payments, p.related_task_id = tk := by
  cases hf : db.payments.find? (fun p => decide (p.related_task_id = tk)) with
  | none =>
      unfold createTaskPayment
      rw [hf]
      constructor
      · intro h; exact absurd h (by simp)
      · intro ⟨p, hp, he⟩
        have := List.find?_eq_none.mp hf p hp
        simp [he] at this
  | some p =>
      unfold createTaskPayment
      rw [hf]
      constructor
      · intro _
        exact ⟨p, List.mem_of_find?_eq_some hf, by simpa using List.find?_some hf⟩
      · intro _; rfl

/-- Claim C4: a successful create produces a PENDING payment with gross
amount task_price + service_fee, increases the payee's pending balance by
(task_price − commission) and the platform's pending balance by
(commission + service_fee), the two increases summing exactly to the gross
amount; two PENDING ledger entries referencing the payment are written in
the same transaction, with amounts summing to the same delta; and any
failing create leaves the database unchanged (all-or-nothing). -/
theorem claim_C4 (price comm fee preAvail prePend pb pp pr : Amount)
    (acct pi : Option String) :
    ((createTaskPayment (baseDB preAvail prePend pb pp pr acct) price comm fee
        "u" "p" "t" pi).2.2 =
      .ok { paymentId := 1, tasker_pending := price - comm,
            company_pending := comm + fee }) ∧
    paymentStatusFor (createTaskPayment (baseDB preAvail prePend pb pp pr acct)
        price comm fee "u" "p" "t" pi).1 "t" = some .PENDING ∧
    ((createTaskPayment (baseDB preAvail prePend pb pp pr acct) price comm fee
        "u" "p" "t" pi).1.payments.map Payment.amount = [price + fee]) ∧
    pendingOf (createTaskPayment (baseDB preAvail prePend pb pp pr acct)
        price comm fee "u" "p" "t" pi).1 =
      pendingOf (baseDB preAvail prePend pb pp pr acct) + (price - comm) ∧
    platPendingOf (createTaskPayment (baseDB preAvail prePend pb pp pr acct)
        price comm fee "u" "p" "t" pi).1 =
      platPendingOf (baseDB preAvail prePend pb pp pr acct) + (comm + fee) ∧
    (pendingOf (createTaskPayment (baseDB preAvail prePend pb pp pr acct)
        price comm fee "u" "p" "t" pi).1 -
        pendingOf (baseDB preAvail prePend pb pp pr acct)) +
      (platPendingOf (createTaskPayment (baseDB preAvail prePend pb pp pr acct)
        price comm fee "u" "p" "t" pi).1 -
        platPendingOf (baseDB preAvail prePend pb pp pr acct)) = price + fee ∧
    ((createTaskPayment (baseDB preAvail prePend pb pp pr acct) price comm fee
        "u" "p" "t" pi).1.ledger.map (fun e => (e.amount, e.status, e.reference_id)) =
      [(price - comm, "PENDING", some 1), (comm + fee, "PENDING", some 1)]) ∧
    ((price - comm) + (comm + fee) = price + fee) ∧
    ((createTaskPayment (baseDB preAvail prePend pb pp pr acct) price comm fee
        "u" "p" "t" pi).2.1 =
      [Ev.mutate "tasker" "pending_balance" (price - comm),
       Ev.mutate "platform" "pending_balance" (comm + fee),
       Ev.ledgerAppend { from_wallet_id := none, to_wallet_id := some 0,
                         platform_account_id := none, amount := price - comm,
                         currency := "USD", type := "EARNING_PENDING",
                         status := "PENDING", reference_id := some 1 },
       Ev.ledgerAppend { from_wallet_id := none, to_wallet_id := none,
                         platform_account_id := some 0, amount := comm + fee,
                         currency := "USD", type := "FEE_PENDING",
                         status := "PENDING", reference_id := some 1 }]) ∧
    (∀ (db : DB) (tp cm sf : Amount) (tid pid tk : String) (pi2 : Option String)
        (e : AppErr),
      (createTaskPayment db tp cm sf tid pid tk pi2).2.2 = .error e →
        (createTaskPayment db tp cm sf tid pid tk pi2).1 = db ∧
          (createTaskPayment db tp cm sf tid pid tk pi2).2.1 = []) := by
  refine ⟨rfl, rfl, rfl, rfl, rfl, ?_, rfl, by ring, rfl, ?_⟩
  · show prePend + (price - comm) - prePend + (pp + (comm + fee) - pp) = price + fee
    ring
  · exact fun db tp cm sf tid pid tk pi2 e h =>
      createTaskPayment_error_rollback db tp cm sf tid pid tk pi2 e h

/-- Witness for claim C4: the all-or-nothing part applied at a concrete
duplicate create (a payment for task "t" already exists), every hypothesis
discharged by evaluation. -/
theorem claim_C4_witness :
    (createTaskPayment (heldDB 100 15 10 0 0 0 0 0 none none) 100 15 10
        "u" "p" "t" none).1 = heldDB 100 15 10 0 0 0 0 0 none none ∧
    (createTaskPayment (heldDB 100 15 10 0 0 0 0 0 none none) 100 15 10
        "u" "p" "t" none).2.1 = [] :=
  (claim_C4 100 15 10 0 0 0 0 0 none none).2.2.2.2.2.2.2.2.2
    (heldDB 100 15 10 0 0 0 0 0 none none) 100 15 10 "u" "p" "t" none
    { message := "Payment already exists for this task.", httpStatus := 409 }
    (by rfl)

/-- Counterexample to claim C5: in refundedDBc every payment for task "t" is
terminal (REFUNDED), yet create still fails with the 409 Conflict error and
changes nothing — the duplicate check does not ignore terminal payments. -/
theorem claim_C5_counterexample :
    (∀ p ∈ refundedDBc.payments, p.status = .REFUNDED) ∧
    (createTaskPayment refundedDBc 100 15 10 "u" "p" "t" none).2.2 =
      .error { message := "Payment already exists for this task.", httpStatus := 409 } ∧
    (createTaskPayment refundedDBc 100 15 10 "u" "p" "t" none).1 = refundedDBc :=
  ⟨by decide, by rfl, by rfl⟩

/-- Claim C5 as amended: create fails with the 409 Conflict error if and only
if any payment row (of any status, terminal included) exists for the task id,
in which case the database is unchanged; in particular a second create with
the same task id returns Conflict with no additional balance mutation. -/
theorem claim_C5 :
    (∀ (db : DB) (tp cm sf : Amount) (tid pid tk : String) (pi : Option String),
      ((createTaskPayment db tp cm sf tid pid tk pi).2.2 =
          .error { message := "Payment already exists for this task.", httpStatus := 409 } ↔
        ∃ p ∈ db.payments, p.related_task_id = tk) ∧
      (∀ e, (createTaskPayment db tp cm sf tid pid tk pi).2.2 = .error e →
        (createTaskPayment db tp cm sf tid pid tk pi).1 = db)) ∧
    (∀ (price comm fee preAvail prePend pb pp pr p2 c2 f2 : Amount)
        (acct pi pi2 : Option String),
      (createTaskPayment (heldDB price comm fee preAvail prePend pb pp pr acct pi)
          p2 c2 f2 "u" "p" "t" pi2).2.2 =
        .error { message := "Payment already exists for this task.", httpStatus := 409 } ∧
      (createTaskPayment (heldDB price comm fee preAvail prePend pb pp pr acct pi)
          p2 c2 f2 "u" "p" "t" pi2).1 =
        heldDB price comm fee preAvail prePend pb pp pr acct pi) :=
  ⟨fun db tp cm sf tid pid tk pi =>
    ⟨createTaskPayment_error_iff db tp cm sf tid pid tk pi,
     fun e h => (createTaskPayment_error_rollback db tp cm sf tid pid tk pi e h).1⟩,
   fun _ _ _ _ _ _ _ _ _ _ _ _ _ _ => ⟨rfl, rfl⟩⟩

/-- Witness for claim C5: at the concrete terminal-payment state the
equivalence yields the existing payment row, with the error hypothesis
discharged by evaluation. -/
theorem claim_C5_witness :
    ∃ p ∈ refundedDBc.payments, p.related_task_id = "t" :=
  ((claim_C5.1 refundedDBc 1 1 1 "u" "p" "t" none).1).mp (by rfl)

/-- Claim C8: CANCEL on a PENDING payment — internally (no payment intent,
any gateway) or with a successful gateway refund — refunds gross − service_fee,
releases the payee's pending hold of (task_price − commission), removes the
full held amount (commission + service_fee) from the platform's pending
balance, credits platform balance and revenue with the service fee only
(commission discarded), leaves the payee's available balance untouched, and
marks the Payment REFUNDED. -/
theorem claim_C8 (price comm fee preAvail prePend pb pp pr : Amount)
    (s : String) (tr : GwOutcome) (acct : Option String) :
    (∀ gw : Gateway,
      ((handleTaskAction gw
          (heldDB price comm fee preAvail prePend pb pp pr acct none) "t" "p" .CANCEL).2.2 =
        .ok { success := true, status := "CANCELLED",
              refund_amount := some (price + fee - fee), fee_kept := some fee,
              penalty := none }) ∧
      pendingOf (handleTaskAction gw
          (heldDB price comm fee preAvail prePend pb pp pr acct none) "t" "p" .CANCEL).1 =
        pendingOf (heldDB price comm fee preAvail prePend pb pp pr acct none) - (price - comm) ∧
      platPendingOf (handleTaskAction gw
          (heldDB price comm fee preAvail prePend pb pp pr acct none) "t" "p" .CANCEL).1 =
        platPendingOf (heldDB price comm fee preAvail prePend pb pp pr acct none) - (comm + fee) ∧
      platBalanceOf (handleTaskAction gw
          (heldDB price comm fee preAvail prePend pb pp pr acct none) "t" "p" .CANCEL).1 =
        platBalanceOf (heldDB price comm fee preAvail prePend pb pp pr acct none) + fee ∧
      platRevenueOf (handleTaskAction gw
          (heldDB price comm fee preAvail prePend pb pp pr acct none) "t" "p" .CANCEL).1 =
        platRevenueOf (heldDB price comm fee preAvail prePend pb pp pr acct none) + fee ∧
      availOf (handleTaskAction gw
          (heldDB price comm fee preAvail prePend pb pp pr acct none) "t" "p" .CANCEL).1 =
        availOf (heldDB price comm fee preAvail prePend pb pp pr acct none) ∧
      paymentStatusFor (handleTaskAction gw
          (heldDB price comm fee preAvail prePend pb pp pr acct none) "t" "p" .CANCEL).1 "t" =
        some .REFUNDED) ∧
    (((handleTaskAction (gwConst tr (.ok "re_1"))
        (heldDB price comm fee preAvail prePend pb pp pr acct (some s)) "t" "p" .CANCEL).2.2 =
      .ok { success := true, status := "CANCELLED",
            refund_amount := some (price + fee - fee), fee_kept := some fee,
            penalty := none }) ∧
    pendingOf (handleTaskAction (gwConst tr (.ok "re_1"))
        (heldDB price comm fee preAvail prePend pb pp pr acct (some s)) "t" "p" .CANCEL).1 =
      pendingOf (heldDB price comm fee preAvail prePend pb pp pr acct (some s)) - (price - comm) ∧
    platPendingOf (handleTaskAction (gwConst tr (.ok "re_1"))
        (heldDB price comm fee preAvail prePend pb pp pr acct (some s)) "t" "p" .CANCEL).1 =
      platPendingOf (heldDB price comm fee preAvail prePend pb pp pr acct (some s)) - (comm + fee) ∧
    platBalanceOf (handleTaskAction (gwConst tr (.ok "re_1"))
        (heldDB price comm fee preAvail prePend pb pp pr acct (some s)) "t" "p" .CANCEL).1 =
      platBalanceOf (heldDB price comm fee preAvail prePend pb pp pr acct (some s)) + fee ∧
    platRevenueOf (handleTaskAction (gwConst tr (.ok "re_1"))
        (heldDB price comm fee preAvail prePend pb pp pr acct (some s)) "t" "p" .CANCEL).1 =
      platRevenueOf (heldDB price comm fee preAvail prePend pb pp pr acct (some s)) + fee ∧
    availOf (handleTaskAction (gwConst tr (.ok "re_1"))
        (heldDB price comm fee preAvail prePend pb pp pr acct (some s)) "t" "p" .CANCEL).1 =
      availOf (heldDB price comm fee preAvail prePend pb pp pr acct (some s)) ∧
    paymentStatusFor (handleTaskAction (gwConst tr (.ok "re_1"))
        (heldDB price comm fee preAvail prePend pb pp pr acct (some s)) "t" "p" .CANCEL).1 "t" =
      some .REFUNDED) := by
  constructor
  · intro gw
    refine ⟨rfl, ?_, rfl, rfl, rfl, rfl, rfl⟩
    show prePend + (price - comm) - (price + fee - fee - comm) =
      prePend + (price - comm) - (price - comm)
    ring
  · refine ⟨rfl, ?_, rfl, rfl, rfl, rfl, rfl⟩
    show prePend + (price - comm) - (price + fee - fee - comm) =
      prePend + (price - comm) - (price - comm)
    ring

/-- Claim C9: CANCEL_FULL refunds the full gross amount, reverses payee and
platform held amounts exactly as held (pending holds for a PENDING payment,
available and platform balance for a COMPLETED one), additionally debits the
payee's available balance by the commission — which may drive it negative —
and credits platform balance and revenue with that commission as penalty
income, then marks the Payment REFUNDED. -/
theorem claim_C9 (price comm fee preAvail prePend pb pp pr : Amount)
    (s : String) (tr : GwOutcome) (acct : Option String) :
    (∀ gw : Gateway,
      ((handleTaskAction gw
          (heldDB price comm fee preAvail prePend pb pp pr acct none) "t" "p" .CANCEL_FULL).2.2 =
        .ok { success := true, status := "CANCELLED_FULL",
              refund_amount := some (price + fee), fee_kept := none,
              penalty := some comm }) ∧
      pendingOf (handleTaskAction gw
          (heldDB price comm fee preAvail prePend pb pp pr acct none) "t" "p" .CANCEL_FULL).1 =
        pendingOf (heldDB price comm fee preAvail prePend pb pp pr acct none) - (price - comm) ∧
      platPendingOf (handleTaskAction gw
          (heldDB price comm fee preAvail prePend pb pp pr acct none) "t" "p" .CANCEL_FULL).1 =
        platPendingOf (heldDB price comm fee preAvail prePend pb pp pr acct none) - (comm + fee) ∧
      availOf (handleTaskAction gw
          (heldDB price comm fee preAvail prePend pb pp pr acct none) "t" "p" .CANCEL_FULL).1 =
        availOf (heldDB price comm fee preAvail prePend pb pp pr acct none) - comm ∧
      platBalanceOf (handleTaskAction gw
          (heldDB price comm fee preAvail prePend pb pp pr acct none) "t" "p" .CANCEL_FULL).1 =
        platBalanceOf (heldDB price comm fee preAvail prePend pb pp pr acct none) + comm ∧
      platRevenueOf (handleTaskAction gw
          (heldDB price comm fee preAvail prePend pb pp pr acct none) "t" "p" .CANCEL_FULL).1 =
        platRevenueOf (heldDB price comm fee preAvail prePend pb pp pr acct none) + comm ∧
      paymentStatusFor (handleTaskAction gw
          (heldDB price comm fee preAvail prePend pb pp pr acct none) "t" "p" .CANCEL_FULL).1 "t" =
        some .REFUNDED) ∧
    (((handleTaskAction (gwConst tr (.ok "re_1"))
        (completedDB price comm fee preAvail prePend pb pp pr (some s)) "t" "p" .CANCEL_FULL).2.2 =
      .ok { success := true, status := "CANCELLED_FULL",
            refund_amount := some (price + fee), fee_kept := none,
            penalty := some comm }) ∧
    availOf (handleTaskAction (gwConst tr (.ok "re_1"))
        (completedDB price comm fee preAvail prePend pb pp pr (some s)) "t" "p" .CANCEL_FULL).1 =
      availOf (completedDB price comm fee preAvail prePend pb pp pr (some s)) -
        (price + fee - fee - comm) - comm ∧
    pendingOf (handleTaskAction (gwConst tr (.ok "re_1"))
        (completedDB price comm fee preAvail prePend pb pp pr (some s)) "t" "p" .CANCEL_FULL).1 =
      pendingOf (completedDB price comm fee preAvail prePend pb pp pr (some s)) ∧
    platPendingOf (handleTaskAction (gwConst tr (.ok "re_1"))
        (completedDB price comm fee preAvail prePend pb pp pr (some s)) "t" "p" .CANCEL_FULL).1 =
      platPendingOf (completedDB price comm fee preAvail prePend pb pp pr (some s)) ∧
    platBalanceOf (handleTaskAction (gwConst tr (.ok "re_1"))
        (completedDB price comm fee preAvail prePend pb pp pr (some s)) "t" "p" .CANCEL_FULL).1 =
      platBalanceOf (completedDB price comm fee preAvail prePend pb pp pr (some s)) -
        (comm + fee) + comm ∧
    platRevenueOf (handleTaskAction (gwConst tr (.ok "re_1"))
        (completedDB price comm fee preAvail prePend pb pp pr (some s)) "t" "p" .CANCEL_FULL).1 =
      platRevenueOf (completedDB price comm fee preAvail prePend pb pp pr (some s)) -
        (comm + fee) + comm ∧
    paymentStatusFor (handleTaskAction (gwConst tr (.ok "re_1"))
        (completedDB price comm fee preAvail prePend pb pp pr (some s)) "t" "p" .CANCEL_FULL).1 "t" =
      some .REFUNDED) ∧
    availOf (handleTaskAction (gwConst (.ok "tr_1") (.ok "re_1"))
        (heldDB 100 15 10 0 0 0 0 0 none none) "t" "p" .CANCEL_FULL).1 < 0 := by
  refine ⟨?_, ⟨rfl, rfl, rfl, rfl, rfl, rfl, rfl⟩, ?_⟩
  case refine_2 =>
    show (0 : ℚ) - 15 < 0
    norm_num
  intro gw
  refine ⟨rfl, ?_, rfl, rfl, rfl, rfl, rfl⟩
  show prePend + (price - comm) - (price + fee - fee - comm) =
    prePend + (price - comm) - (price - comm)
  ring

/-- Claim C6: for each refund-class action (CANCEL, CANCEL_FULL, REFUND) the
gateway refund is issued before any balance mutation (on success the trace
starts with the gateway refund event, and on failure no mutation was ever
executed); when the gateway throws, wallets, platform account, payments and
ledger are exactly as before (the PENDING payment stays PENDING, a COMPLETED
one stays COMPLETED), one refund-class Failure Record is persisted in the
independent transaction, and the caller receives the 502 upstream error. -/
theorem claim_C6 (price comm fee preAvail prePend pb pp pr : Amount)
    (s code msg : String) (tr : GwOutcome) (acct : Option String) :
    (((handleTaskAction (gwConst tr (.err code msg))
        (heldDB price comm fee preAvail prePend pb pp pr acct (some s)) "t" "p" .CANCEL).1.wallets =
      (heldDB price comm fee preAvail prePend pb pp pr acct (some s)).wallets) ∧
    ((handleTaskAction (gwConst tr (.err code msg))
        (heldDB price comm fee preAvail prePend pb pp pr acct (some s)) "t" "p" .CANCEL).1.platform =
      (heldDB price comm fee preAvail prePend pb pp pr acct (some s)).platform) ∧
    ((handleTaskAction (gwConst tr (.err code msg))
        (heldDB price comm fee preAvail prePend pb pp pr acct (some s)) "t" "p" .CANCEL).1.payments =
      (heldDB price comm fee preAvail prePend pb pp pr acct (some s)).payments) ∧
    ((handleTaskAction (gwConst tr (.err code msg))
        (heldDB price comm fee preAvail prePend pb pp pr acct (some s)) "t" "p" .CANCEL).1.ledger =
      (heldDB price comm fee preAvail prePend pb pp pr acct (some s)).ledger) ∧
    ((handleTaskAction (gwConst tr (.err code msg))
        (heldDB price comm fee preAvail prePend pb pp pr acct (some s)) "t" "p" .CANCEL).1.failedRefunds =
      [{ payment_id := 1, task_id := "t", user_id := "p", amount := price + fee - fee,
         currency := "USD", stripe_payment_intent_id := some s, action := "CANCEL",
         error_code := code, error_message := msg, status := "PENDING", retry_count := 0 }]) ∧
    ((handleTaskAction (gwConst tr (.err code msg))
        (heldDB price comm fee preAvail prePend pb pp pr acct (some s)) "t" "p" .CANCEL).2.2 =
      .error { message := "Stripe refund failed: " ++ msg, httpStatus := 502 }) ∧
    ((handleTaskAction (gwConst tr (.err code msg))
        (heldDB price comm fee preAvail prePend pb pp pr acct (some s)) "t" "p" .CANCEL).2.1 =
      [Ev.gwRefund (price + fee - fee)])) ∧
    (((handleTaskAction (gwConst tr (.err code msg))
        (heldDB price comm fee preAvail prePend pb pp pr acct (some s)) "t" "p" .CANCEL_FULL).1.wallets =
      (heldDB price comm fee preAvail prePend pb pp pr acct (some s)).wallets) ∧
    ((handleTaskAction (gwConst tr (.err code msg))
        (heldDB price comm fee preAvail prePend pb pp pr acct (some s)) "t" "p" .CANCEL_FULL).1.platform =
      (heldDB price comm fee preAvail prePend pb pp pr acct (some s)).platform) ∧
    ((handleTaskAction (gwConst tr (.err code msg))
        (heldDB price comm fee preAvail prePend pb pp pr acct (some s)) "t" "p" .CANCEL_FULL).1.payments =
      (heldDB price comm fee preAvail prePend pb pp pr acct (some s)).payments) ∧
    ((handleTaskAction (gwConst tr (.err code msg))
        (heldDB price comm fee preAvail prePend pb pp pr acct (some s)) "t" "p" .CANCEL_FULL).1.failedRefunds =
      [{ payment_id := 1, task_id := "t", user_id := "p", amount := price + fee,
         currency := "USD", stripe_payment_intent_id := some s, action := "CANCEL_FULL",
         error_code := code, error_message := msg, status := "PENDING", retry_count := 0 }]) ∧
    ((handleTaskAction (gwConst tr (.err code msg))
        (heldDB price comm fee preAvail prePend pb pp pr acct (some s)) "t" "p" .CANCEL_FULL).2.2 =
      .error { message := "Stripe refund failed: " ++ msg, httpStatus := 502 }) ∧
    ((handleTaskAction (gwConst tr (.err code msg))
        (heldDB price comm fee preAvail prePend pb pp pr acct (some s)) "t" "p" .CANCEL_FULL).2.1 =
      [Ev.gwRefund (price + fee)])) ∧
    (((handleTaskAction (gwConst tr (.err code msg))
        (heldDB price comm fee preAvail prePend pb pp pr acct (some s)) "t" "p" .REFUND).1.wallets =
      (heldDB price comm fee preAvail prePend pb pp pr acct (some s)).wallets) ∧
    ((handleTaskAction (gwConst tr (.err code msg))
        (heldDB price comm fee preAvail prePend pb pp pr acct (some s)) "t" "p" .REFUND).1.platform =
      (heldDB price comm fee preAvail prePend pb pp pr acct (some s)).platform) ∧
    ((handleTaskAction (gwConst tr (.err code msg))
        (heldDB price comm fee preAvail prePend pb pp pr acct (some s)) "t" "p" .REFUND).1.payments =
      (heldDB price comm fee preAvail prePend pb pp pr acct (some s)).payments) ∧
    ((handleTaskAction (gwConst tr (.err code msg))
        (heldDB price comm fee preAvail prePend pb pp pr acct (some s)) "t" "p" .REFUND).1.failedRefunds =
      [{ payment_id := 1, task_id := "t", user_id := "p", amount := price + fee,
         currency := "USD", stripe_payment_intent_id := some s, action := "REFUND",
         error_code := code, error_message := msg, status := "PENDING", retry_count := 0 }]) ∧
    ((handleTaskAction (gwConst tr (.err code msg))
        (heldDB price comm fee preAvail prePend pb pp pr acct (some s)) "t" "p" .REFUND).2.2 =
      .error { message := "Stripe refund failed: " ++ msg, httpStatus := 502 }) ∧
    ((handleTaskAction (gwConst tr (.err code msg))
        (heldDB price comm fee preAvail prePend pb pp pr acct (some s)) "t" "p" .REFUND).2.1 =
      [Ev.gwRefund (price + fee)])) ∧
    (((handleTaskAction (gwConst tr (.err code msg))
        (completedDB price comm fee preAvail prePend pb pp pr (some s)) "t" "p" .CANCEL).1.wallets =
      (completedDB price comm fee preAvail prePend pb pp pr (some s)).wallets) ∧
    ((handleTaskAction (gwConst tr (.err code msg))
        (completedDB price comm fee preAvail prePend pb pp pr (some s)) "t" "p" .CANCEL).1.platform =
      (completedDB price comm fee preAvail prePend pb pp pr (some s)).platform) ∧
    ((handleTaskAction (gwConst tr (.err code msg))
        (completedDB price comm fee preAvail prePend pb pp pr (some s)) "t" "p" .CANCEL).1.payments =
      (completedDB price comm fee preAvail prePend pb pp pr (some s)).payments) ∧
    paymentStatusFor (handleTaskAction (gwConst tr (.err code msg))
        (completedDB price comm fee preAvail prePend pb pp pr (some s)) "t" "p" .CANCEL).1 "t" =
      some .COMPLETED ∧
    ((handleTaskAction (gwConst tr (.err code msg))
        (completedDB price comm fee preAvail prePend pb pp pr (some s)) "t" "p" .CANCEL).2.2 =
      .error { message := "Stripe refund failed: " ++ msg, httpStatus := 502 })) ∧
    ((handleTaskAction (gwConst tr (.ok "re_1"))
        (heldDB price comm fee preAvail prePend pb pp pr acct (some s)) "t" "p" .CANCEL).2.1 =
      [Ev.gwRefund (price + fee - fee),
       Ev.mutate "tasker" "pending_balance" (-(price + fee - fee - comm)),
       Ev.mutate "platform" "pending_balance" (-(comm + fee)),
       Ev.mutate "platform" "balance" fee,
       Ev.mutate "platform" "total_revenue" fee]) ∧
    ((handleTaskAction (gwConst tr (.ok "re_1"))
        (heldDB price comm fee preAvail prePend pb pp pr acct (some s)) "t" "p" .CANCEL_FULL).2.1.head? =
      some (Ev.gwRefund (price + fee))) ∧
    ((handleTaskAction (gwConst tr (.ok "re_1"))
        (heldDB price comm fee preAvail prePend pb pp pr acct (some s)) "t" "p" .REFUND).2.1.head? =
      some (Ev.gwRefund (price + fee))) :=
  ⟨⟨rfl, rfl, rfl, rfl, rfl, rfl, rfl⟩,
   ⟨rfl, rfl, rfl, rfl, rfl, rfl⟩,
   ⟨rfl, rfl, rfl, rfl, rfl, rfl⟩,
   ⟨rfl, rfl, rfl, rfl, rfl⟩,
   rfl, rfl, rfl⟩

/-- Claim C1: COMPLETE on a PENDING payment with a linked settlement account
whose gateway transfer throws: the response is the 502 upstream error, the
Payment is still PENDING, the payee wallet and the platform account are
exactly as before the call (the pending-to-available move is rolled back),
exactly one Failure Record exists for the task id and it captures the
attempted amount (wallet balance after the internal increment), and a second
failing COMPLETE with the same error code updates that record in place
instead of creating a second one — for a known error code (retryable record)
and for an unknown one (admin-review record) alike. -/
theorem claim_C1 (price comm fee preAvail prePend pb pp pr : Amount) (msg msg2 : String)
    (hpos : preAvail + (price + fee - fee - comm) > 0) :
    ((handleTaskAction (gwConst (.err "card_declined" msg) (.ok "re_1"))
        (heldDB price comm fee preAvail prePend pb pp pr (some "acct_1") (some "pi_1"))
        "t" "p" .COMPLETE).2.2 = .error { message := msg, httpStatus := 502 }) ∧
    paymentStatusFor (handleTaskAction (gwConst (.err "card_declined" msg) (.ok "re_1"))
        (heldDB price comm fee preAvail prePend pb pp pr (some "acct_1") (some "pi_1"))
        "t" "p" .COMPLETE).1 "t" = some .PENDING ∧
    ((handleTaskAction (gwConst (.err "card_declined" msg) (.ok "re_1"))
        (heldDB price comm fee preAvail prePend pb pp pr (some "acct_1") (some "pi_1"))
        "t" "p" .COMPLETE).1.wallets =
      (heldDB price comm fee preAvail prePend pb pp pr (some "acct_1") (some "pi_1")).wallets) ∧
    ((handleTaskAction (gwConst (.err "card_declined" msg) (.ok "re_1"))
        (heldDB price comm fee preAvail prePend pb pp pr (some "acct_1") (some "pi_1"))
        "t" "p" .COMPLETE).1.platform =
      (heldDB price comm fee preAvail prePend pb pp pr (some "acct_1") (some "pi_1")).platform) ∧
    ((handleTaskAction (gwConst (.err "card_declined" msg) (.ok "re_1"))
        (heldDB price comm fee preAvail prePend pb pp pr (some "acct_1") (some "pi_1"))
        "t" "p" .COMPLETE).1.failedPayouts =
      [{ id := 2, task_id := "t", user_id := "u", stripe_connect_account_id := "acct_1",
         amount := preAvail + (price + fee - fee - comm), currency := "USD",
         error_code := "card_declined", last_error_message := msg,
         status := "PENDING", retry_count := 0 }]) ∧
    failureRecordCount (handleTaskAction (gwConst (.err "card_declined" msg) (.ok "re_1"))
        (heldDB price comm fee preAvail prePend pb pp pr (some "acct_1") (some "pi_1"))
        "t" "p" .COMPLETE).1 "t" = 1 ∧
    failureRecordCount (handleTaskAction (gwConst (.err "card_declined" msg2) (.ok "re_1"))
        (handleTaskAction (gwConst (.err "card_declined" msg) (.ok "re_1"))
          (heldDB price comm fee preAvail prePend pb pp pr (some "acct_1") (some "pi_1"))
          "t" "p" .COMPLETE).1 "t" "p" .COMPLETE).1 "t" = 1 ∧
    ((handleTaskAction (gwConst (.err "card_declined" msg2) (.ok "re_1"))
        (handleTaskAction (gwConst (.err "card_declined" msg) (.ok "re_1"))
          (heldDB price comm fee preAvail prePend pb pp pr (some "acct_1") (some "pi_1"))
          "t" "p" .COMPLETE).1 "t" "p" .COMPLETE).1.failedPayouts =
      [{ id := 2, task_id := "t", user_id := "u", stripe_connect_account_id := "acct_1",
         amount := preAvail + (price + fee - fee - comm), currency := "USD",
         error_code := "card_declined", last_error_message := msg2,
         status := "PENDING", retry_count := 0 }]) ∧
    failureRecordCount (handleTaskAction (gwConst (.err "weird_code" msg) (.ok "re_1"))
        (heldDB price comm fee preAvail prePend pb pp pr (some "acct_1") (some "pi_1"))
        "t" "p" .COMPLETE).1 "t" = 1 ∧
    ((handleTaskAction (gwConst (.err "weird_code" msg) (.ok "re_1"))
        (heldDB price comm fee preAvail prePend pb pp pr (some "acct_1") (some "pi_1"))
        "t" "p" .COMPLETE).1.wallets =
      (heldDB price comm fee preAvail prePend pb pp pr (some "acct_1") (some "pi_1")).wallets) ∧
    failureRecordCount (handleTaskAction (gwConst (.err "weird_code" msg2) (.ok "re_1"))
        (handleTaskAction (gwConst (.err "weird_code" msg) (.ok "re_1"))
          (heldDB price comm fee preAvail prePend pb pp pr (some "acct_1") (some "pi_1"))
          "t" "p" .COMPLETE).1 "t" "p" .COMPLETE).1 "t" = 1 := by
  have e1 : (handleTaskAction (gwConst (.err "card_declined" msg) (.ok "re_1"))
      (heldDB price comm fee preAvail prePend pb pp pr (some "acct_1") (some "pi_1"))
      "t" "p" .COMPLETE).1 =
      checkAndQueue (heldDB price comm fee preAvail prePend pb pp pr (some "acct_1") (some "pi_1"))
        "t" "u" "acct_1" (preAvail + (price + fee - fee - comm)) settingsCurrency
        "card_declined" msg := by
    show ((if preAvail + (price + fee - fee - comm) > 0 then _ else _ :
      DB × List Ev × Except AppErr ActionResult)).1 = _
    rw [if_pos hpos]
    rfl
  have eU : (handleTaskAction (gwConst (.err "weird_code" msg) (.ok "re_1"))
      (heldDB price comm fee preAvail prePend pb pp pr (some "acct_1") (some "pi_1"))
      "t" "p" .COMPLETE).1 =
      checkAndQueue (heldDB price comm fee preAvail prePend pb pp pr (some "acct_1") (some "pi_1"))
        "t" "u" "acct_1" (preAvail + (price + fee - fee - comm)) settingsCurrency
        "weird_code" msg := by
    show ((if preAvail + (price + fee - fee - comm) > 0 then _ else _ :
      DB × List Ev × Except AppErr ActionResult)).1 = _
    rw [if_pos hpos]
    rfl
  refine ⟨?_, ?_, ?_, ?_, ?_, ?_, ?_, ?_, ?_, ?_, ?_⟩
  · show ((if preAvail + (price + fee - fee - comm) > 0 then _ else _ :
      DB × List Ev × Except AppErr ActionResult)).2.2 = _
    rw [if_pos hpos]
  · rw [e1]; rfl
  · rw [e1]; rfl
  · rw [e1]; rfl
  · rw [e1]; rfl
  · rw [e1]; rfl
  · rw [e1]
    show failureRecordCount ((if preAvail + (price + fee - fee - comm) > 0 then _ else _ :
      DB × List Ev × Except AppErr ActionResult)).1 "t" = 1
    rw [if_pos hpos]
    rfl
  · rw [e1]
    show ((if preAvail + (price + fee - fee - comm) > 0 then _ else _ :
      DB × List Ev × Except AppErr ActionResult)).1.failedPayouts = _
    rw [if_pos hpos]
    rfl
  · rw [eU]; rfl
  · rw [eU]; rfl
  · rw [eU]
    show failureRecordCount ((if preAvail + (price + fee - fee - comm) > 0 then _ else _ :
      DB × List Ev × Except AppErr ActionResult)).1 "t" = 1
    rw [if_pos hpos]
    rfl

/-- Witness for claim C1 at the spec scenario: price 100, commission 15,
fee 10, empty wallet, gateway declining with a known code. -/
theorem claim_C1_witness :
    ((0 : ℚ) + (100 + 10 - 10 - 15) > 0) ∧
    failureRecordCount (handleTaskAction (gwConst (.err "card_declined" "boom") (.ok "re_1"))
        (heldDB 100 15 10 0 0 0 0 0 (some "acct_1") (some "pi_1")) "t" "p" .COMPLETE).1 "t" = 1 :=
  ⟨by norm_num, (claim_C1 100 15 10 0 0 0 0 0 "boom" "boom2" (by norm_num)).2.2.2.2.2.1⟩

/-- Counterexample to claim C3 as stated: with a nonzero starting available
balance (50), a successful COMPLETE leaves the available balance at 0, not at
its pre-call value — the transfer drains the whole wallet, not just the
released amount. -/
theorem claim_C3_counterexample :
    availOf (handleTaskAction (gwConst (.ok "tr_1") (.ok "re_1"))
        (heldDB 100 15 10 50 0 0 0 0 (some "acct_1") (some "pi_1")) "t" "p" .COMPLETE).1 ≠
      availOf (heldDB 100 15 10 50 0 0 0 0 (some "acct_1") (some "pi_1")) := by
  have hpos : (50 : ℚ) + (100 + 10 - 10 - 15) > 0 := by norm_num
  show availOf ((if (50 : ℚ) + (100 + 10 - 10 - 15) > 0 then _ else _ :
    DB × List Ev × Except AppErr ActionResult)).1 ≠ _
  rw [if_pos hpos]
  show ((50 : ℚ) + (100 + 10 - 10 - 15)) - ((50 : ℚ) + (100 + 10 - 10 - 15)) ≠ 50
  norm_num



/-- Claim C3 as amended: after a successful COMPLETE with a linked settlement
account, the payee's available balance is 0 — the amount sent to the gateway
is the wallet's reloaded balance after the internal pending-to-available
increment, so the wallet is drained and equals its pre-call value exactly
when that value was 0; the Payment becomes COMPLETED and exactly one payout
audit record exists, carrying that same amount and the gateway transfer
id. -/
theorem claim_C3 (price comm fee preAvail prePend pb pp pr : Amount)
    (hpos : preAvail + (price + fee - fee - comm) > 0) :
    availOf (handleTaskAction (gwConst (.ok "tr_1") (.ok "re_1"))
        (heldDB price comm fee preAvail prePend pb pp pr (some "acct_1") (some "pi_1"))
        "t" "p" .COMPLETE).1 = 0 ∧
    (availOf (handleTaskAction (gwConst (.ok "tr_1") (.ok "re_1"))
        (heldDB price comm fee preAvail prePend pb pp pr (some "acct_1") (some "pi_1"))
        "t" "p" .COMPLETE).1 =
      availOf (heldDB price comm fee preAvail prePend pb pp pr (some "acct_1") (some "pi_1")) ↔
      preAvail = 0) ∧
    ((handleTaskAction (gwConst (.ok "tr_1") (.ok "re_1"))
        (heldDB price comm fee preAvail prePend pb pp pr (some "acct_1") (some "pi_1"))
        "t" "p" .COMPLETE).2.2 =
      .ok { success := true, status := "COMPLETED", refund_amount := none,
            fee_kept := none, penalty := none }) ∧
    paymentStatusFor (handleTaskAction (gwConst (.ok "tr_1") (.ok "re_1"))
        (heldDB price comm fee preAvail prePend pb pp pr (some "acct_1") (some "pi_1"))
        "t" "p" .COMPLETE).1 "t" = some .COMPLETED ∧
    ((handleTaskAction (gwConst (.ok "tr_1") (.ok "re_1"))
        (heldDB price comm fee preAvail prePend pb pp pr (some "acct_1") (some "pi_1"))
        "t" "p" .COMPLETE).1.payouts =
      [{ external_user_id := "u", wallet_id := 0,
         amount := preAvail + (price + fee - fee - comm), currency := "USD",
         method := "BANK", status := "COMPLETED", stripe_payout_id := "tr_1",
         related_task_id := "t" }]) ∧
    payoutCountFor (handleTaskAction (gwConst (.ok "tr_1") (.ok "re_1"))
        (heldDB price comm fee preAvail prePend pb pp pr (some "acct_1") (some "pi_1"))
        "t" "p" .COMPLETE).1 "t" = 1 ∧
    ((handleTaskAction (gwConst (.ok "tr_1") (.ok "re_1"))
        (heldDB price comm fee preAvail prePend pb pp pr (some "acct_1") (some "pi_1"))
        "t" "p" .COMPLETE).2.1 =
      [Ev.mutate "tasker" "pending_balance" (-(price + fee - fee - comm)),
       Ev.mutate "tasker" "available_balance" (price + fee - fee - comm),
       Ev.mutate "platform" "pending_balance" (-(comm + fee)),
       Ev.mutate "platform" "balance" (comm + fee),
       Ev.mutate "platform" "total_revenue" (comm + fee),
       Ev.gwTransfer (preAvail + (price + fee - fee - comm)),
       Ev.mutate "tasker" "available_balance" (-(preAvail + (price + fee - fee - comm)))]) := by
  refine ⟨?_, ?_, ?_, ?_, ?_, ?_, ?_⟩
  · show availOf ((if preAvail + (price + fee - fee - comm) > 0 then _ else _ :
      DB × List Ev × Except AppErr ActionResult)).1 = 0
    rw [if_pos hpos]
    show (preAvail + (price + fee - fee - comm)) - (preAvail + (price + fee - fee - comm)) = 0
    ring
  · show availOf ((if preAvail + (price + fee - fee - comm) > 0 then _ else _ :
      DB × List Ev × Except AppErr ActionResult)).1 = _ ↔ _
    rw [if_pos hpos]
    show (preAvail + (price + fee - fee - comm)) - (preAvail + (price + fee - fee - comm)) =
      preAvail ↔ preAvail = 0
    rw [sub_self]
    exact eq_comm
  · show ((if preAvail + (price + fee - fee - comm) > 0 then _ else _ :
      DB × List Ev × Except AppErr ActionResult)).2.2 = _
    rw [if_pos hpos]
  · show paymentStatusFor ((if preAvail + (price + fee - fee - comm) > 0 then _ else _ :
      DB × List Ev × Except AppErr ActionResult)).1 "t" = _
    rw [if_pos hpos]
    rfl
  · show ((if preAvail + (price + fee - fee - comm) > 0 then _ else _ :
      DB × List Ev × Except AppErr ActionResult)).1.payouts = _
    rw [if_pos hpos]
    rfl
  · show payoutCountFor ((if preAvail + (price + fee - fee - comm) > 0 then _ else _ :
      DB × List Ev × Except AppErr ActionResult)).1 "t" = 1
    rw [if_pos hpos]
    rfl
  · show ((if preAvail + (price + fee - fee - comm) > 0 then _ else _ :
      DB × List Ev × Except AppErr ActionResult)).2.1 = _
    rw [if_pos hpos]
    rfl

/-- Claim C10: COMPLETE on a PENDING payment with a linked settlement account
whose reloaded available balance is not positive: no gateway transfer happens
(no transfer event in the trace), no payout audit record, no queued payout
and no Failure Record is written, yet the Payment is marked COMPLETED and the
transaction commits with the pending-to-available move applied. -/
theorem claim_C10 (price comm fee preAvail prePend pb pp pr : Amount)
    (hle : preAvail + (price + fee - fee - comm) ≤ 0) :
    ((handleTaskAction (gwConst (.ok "tr_1") (.ok "re_1"))
        (heldDB price comm fee preAvail prePend pb pp pr (some "acct_1") (some "pi_1"))
        "t" "p" .COMPLETE).2.2 =
      .ok { success := true, status := "COMPLETED", refund_amount := none,
            fee_kept := none, penalty := none }) ∧
    paymentStatusFor (handleTaskAction (gwConst (.ok "tr_1") (.ok "re_1"))
        (heldDB price comm fee preAvail prePend pb pp pr (some "acct_1") (some "pi_1"))
        "t" "p" .COMPLETE).1 "t" = some .COMPLETED ∧
    ((handleTaskAction (gwConst (.ok "tr_1") (.ok "re_1"))
        (heldDB price comm fee preAvail prePend pb pp pr (some "acct_1") (some "pi_1"))
        "t" "p" .COMPLETE).1.payouts = []) ∧
    failureRecordCount (handleTaskAction (gwConst (.ok "tr_1") (.ok "re_1"))
        (heldDB price comm fee preAvail prePend pb pp pr (some "acct_1") (some "pi_1"))
        "t" "p" .COMPLETE).1 "t" = 0 ∧
    pendingPayoutCountFor (handleTaskAction (gwConst (.ok "tr_1") (.ok "re_1"))
        (heldDB price comm fee preAvail prePend pb pp pr (some "acct_1") (some "pi_1"))
        "t" "p" .COMPLETE).1 "t" = 0 ∧
    ((handleTaskAction (gwConst (.ok "tr_1") (.ok "re_1"))
        (heldDB price comm fee preAvail prePend pb pp pr (some "acct_1") (some "pi_1"))
        "t" "p" .COMPLETE).2.1.filter Ev.isGwTransfer = []) ∧
    availOf (handleTaskAction (gwConst (.ok "tr_1") (.ok "re_1"))
        (heldDB price comm fee preAvail prePend pb pp pr (some "acct_1") (some "pi_1"))
        "t" "p" .COMPLETE).1 = preAvail + (price + fee - fee - comm) := by
  have hneg : ¬ (preAvail + (price + fee - fee - comm) > 0) := not_lt.mpr hle
  refine ⟨?_, ?_, ?_, ?_, ?_, ?_, ?_⟩
  · show ((if preAvail + (price + fee - fee - comm) > 0 then _ else _ :
      DB × List Ev × Except AppErr ActionResult)).2.2 = _
    rw [if_neg hneg]
  · show paymentStatusFor ((if preAvail + (price + fee - fee - comm) > 0 then _ else _ :
      DB × List Ev × Except AppErr ActionResult)).1 "t" = _
    rw [if_neg hneg]
    rfl
  · show ((if preAvail + (price + fee - fee - comm) > 0 then _ else _ :
      DB × List Ev × Except AppErr ActionResult)).1.payouts = _
    rw [if_neg hneg]
    rfl
  · show failureRecordCount ((if preAvail + (price + fee - fee - comm) > 0 then _ else _ :
      DB × List Ev × Except AppErr ActionResult)).1 "t" = 0
    rw [if_neg hneg]
    rfl
  · show pendingPayoutCountFor ((if preAvail + (price + fee - fee - comm) > 0 then _ else _ :
      DB × List Ev × Except AppErr ActionResult)).1 "t" = 0
    rw [if_neg hneg]
    rfl
  · show ((if preAvail + (price + fee - fee - comm) > 0 then _ else _ :
      DB × List Ev × Except AppErr ActionResult)).2.1.filter Ev.isGwTransfer = []
    rw [if_neg hneg]
    rfl
  · show availOf ((if preAvail + (price + fee - fee - comm) > 0 then _ else _ :
      DB × List Ev × Except AppErr ActionResult)).1 = _
    rw [if_neg hneg]
    rfl

/-- Witness for claim C3 at the spec scenario with an empty wallet. -/
theorem claim_C3_witness :
    ((0 : ℚ) + (100 + 10 - 10 - 15) > 0) ∧
    availOf (handleTaskAction (gwConst (.ok "tr_1") (.ok "re_1"))
        (heldDB 100 15 10 0 0 0 0 0 (some "acct_1") (some "pi_1")) "t" "p" .COMPLETE).1 = 0 :=
  ⟨by norm_num, (claim_C3 100 15 10 0 0 0 0 0 (by norm_num)).1⟩

/-- Witness for claim C10: a wallet made deeply negative by penalties, so the
released amount still leaves a non-positive balance. -/
theorem claim_C10_witness :
    ((-100 : ℚ) + (100 + 10 - 10 - 15) ≤ 0) ∧
    ((handleTaskAction (gwConst (.ok "tr_1") (.ok "re_1"))
        (heldDB 100 15 10 (-100) 0 0 0 0 (some "acct_1") (some "pi_1"))
        "t" "p" .COMPLETE).1.payouts = []) :=
  ⟨by norm_num, (claim_C10 100 15 10 (-100) 0 0 0 0 (by norm_num)).2.2.1⟩

/-- Counterexample to claim C2 as stated: a committed COMPLETE performs five
balance mutations but appends zero ledger entries, so the mutations are not
paired one-to-one with same-transaction ledger entries. -/
theorem claim_C2_counterexample :
    ¬ (((handleTaskAction (gwConst (.ok "tr_1") (.ok "re_1"))
        (heldDB 100 15 10 0 0 0 0 0 none none) "t" "p" .COMPLETE).2.1.filter Ev.isMutate).length =
      ((handleTaskAction (gwConst (.ok "tr_1") (.ok "re_1"))
        (heldDB 100 15 10 0 0 0 0 0 none none) "t" "p" .COMPLETE).2.1.filter Ev.isLedgerAppend).length) := by
  decide

/-- Claim C2 as amended: only create pairs its balance mutations with ledger
entries written in the same transaction (two mutations, two PENDING entries);
every committed action path (COMPLETE queued, COMPLETE with payout, CANCEL,
CANCEL_FULL, REFUND) performs its balance mutations with zero new ledger
entries, only updating the status of the entries written at create (the
ledger row count never changes). -/
theorem claim_C2 (price comm fee preAvail prePend pb pp pr : Amount)
    (s : String) (acct pi : Option String)
    (hpos : preAvail + (price + fee - fee - comm) > 0) :
    (((createTaskPayment (baseDB preAvail prePend pb pp pr acct) price comm fee
        "u" "p" "t" pi).2.1.filter Ev.isMutate).length = 2 ∧
      ((createTaskPayment (baseDB preAvail prePend pb pp pr acct) price comm fee
        "u" "p" "t" pi).2.1.filter Ev.isLedgerAppend).length = 2) ∧
    (((handleTaskAction (gwConst (.ok "tr_1") (.ok "re_1"))
        (heldDB price comm fee preAvail prePend pb pp pr none pi) "t" "p" .COMPLETE).2.1.filter
          Ev.isLedgerAppend) = [] ∧
      ((handleTaskAction (gwConst (.ok "tr_1") (.ok "re_1"))
        (heldDB price comm fee preAvail prePend pb pp pr none pi) "t" "p" .COMPLETE).2.1.filter
          Ev.isMutate).length = 5 ∧
      (handleTaskAction (gwConst (.ok "tr_1") (.ok "re_1"))
        (heldDB price comm fee preAvail prePend pb pp pr none pi) "t" "p" .COMPLETE).1.ledger.length =
        (heldDB price comm fee preAvail prePend pb pp pr none pi).ledger.length) ∧
    (((handleTaskAction (gwConst (.ok "tr_1") (.ok "re_1"))
        (heldDB price comm fee preAvail prePend pb pp pr (some "acct_1") pi) "t" "p" .COMPLETE).2.1.filter
          Ev.isLedgerAppend) = [] ∧
      ((handleTaskAction (gwConst (.ok "tr_1") (.ok "re_1"))
        (heldDB price comm fee preAvail prePend pb pp pr (some "acct_1") pi) "t" "p" .COMPLETE).2.1.filter
          Ev.isMutate).length = 6) ∧
    (∀ gw : Gateway,
      ((handleTaskAction gw
        (heldDB price comm fee preAvail prePend pb pp pr acct none) "t" "p" .CANCEL).2.1.filter
          Ev.isLedgerAppend) = [] ∧
      ((handleTaskAction gw
        (heldDB price comm fee preAvail prePend pb pp pr acct none) "t" "p" .CANCEL).2.1.filter
          Ev.isMutate).length = 4 ∧
      (handleTaskAction gw
        (heldDB price comm fee preAvail prePend pb pp pr acct none) "t" "p" .CANCEL).1.ledger.length =
        (heldDB price comm fee preAvail prePend pb pp pr acct none).ledger.length) ∧
    (∀ gw : Gateway,
      ((handleTaskAction gw
        (heldDB price comm fee preAvail prePend pb pp pr acct none) "t" "p" .CANCEL_FULL).2.1.filter
          Ev.isLedgerAppend) = [] ∧
      ((handleTaskAction gw
        (heldDB price comm fee preAvail prePend pb pp pr acct none) "t" "p" .CANCEL_FULL).2.1.filter
          Ev.isMutate).length = 5) ∧
    (((handleTaskAction (gwConst (.ok "tr_1") (.ok "re_1"))
        (heldDB price comm fee preAvail prePend pb pp pr acct (some s)) "t" "p" .REFUND).2.1.filter
          Ev.isLedgerAppend) = [] ∧
      ((handleTaskAction (gwConst (.ok "tr_1") (.ok "re_1"))
        (heldDB price comm fee preAvail prePend pb pp pr acct (some s)) "t" "p" .REFUND).2.1.filter
          Ev.isMutate).length = 2) := by
  refine ⟨⟨rfl, rfl⟩, ⟨rfl, rfl, rfl⟩, ⟨?_, ?_⟩, fun gw => ⟨rfl, rfl, rfl⟩,
    fun gw => ⟨rfl, rfl⟩, ⟨rfl, rfl⟩⟩
  · show ((if preAvail + (price + fee - fee - comm) > 0 then _ else _ :
      DB × List Ev × Except AppErr ActionResult)).2.1.filter Ev.isLedgerAppend = []
    rw [if_pos hpos]
    rfl
  · show (((if preAvail + (price + fee - fee - comm) > 0 then _ else _ :
      DB × List Ev × Except AppErr ActionResult)).2.1.filter Ev.isMutate).length = 6
    rw [if_pos hpos]
    rfl

/-- Witness for claim C2 at the spec scenario with an empty wallet. -/
theorem claim_C2_witness :
    ((0 : ℚ) + (100 + 10 - 10 - 15) > 0) ∧
    (((createTaskPayment (baseDB 0 0 0 0 0 none) 100 15 10 "u" "p" "t" none).2.1.filter
        Ev.isMutate).length = 2 ∧
      ((createTaskPayment (baseDB 0 0 0 0 0 none) 100 15 10 "u" "p" "t" none).2.1.filter
        Ev.isLedgerAppend).length = 2) :=
  ⟨by norm_num, (claim_C2 100 15 10 0 0 0 0 0 "pi_1" none none (by norm_num)).1⟩

/-- Evaluation of one retry step when the gateway transfer with the record's
stored amount succeeds: the record is marked SUCCESS (nothing else is
persisted) and the success counter advances. -/
theorem retryOne_eval_ok (gw : Gateway) (db : DB) (res : RetryResults)
    (rec : FailedPayout) (w : Wallet) (tid : String)
    (hw : db.wallets.find? (fun x => decide (x.external_user_id = rec.user_id)) = some w)
    (hg : gw.transfer rec.amount = .ok tid) :
    retryOne gw (db, res) rec =
      (updateFailedPayoutById db rec.id (fun f => { f with status := "SUCCESS" }),
       { processed := res.processed + 1, success := res.success + 1,
         failed := res.failed }) := by
  simp only [retryOne]
  rw [hw, hg]

/-- Evaluation of one retry step when the gateway transfer with the record's
stored amount fails: retry_count is incremented, the error fields are
refreshed, the status is left as it was, and the failure counter advances. -/
theorem retryOne_eval_err (gw : Gateway) (db : DB) (res : RetryResults)
    (rec : FailedPayout) (w : Wallet) (code msg : String)
    (hw : db.wallets.find? (fun x => decide (x.external_user_id = rec.user_id)) = some w)
    (hg : gw.transfer rec.amount = .err code msg) :
    retryOne gw (db, res) rec =
      (updateFailedPayoutById db rec.id
         (fun f => { f with retry_count := f.retry_count + 1,
                            last_error_message := msg, error_code := code }),
       { processed := res.processed + 1, success := res.success,
         failed := res.failed + 1 }) := by
  simp only [retryOne]
  rw [hw, hg]

/-- Each retry step advances the processed counter by exactly one. -/
theorem retryOne_processed (gw : Gateway) (acc : DB × RetryResults)
    (rec : FailedPayout) :
    (retryOne gw acc rec).2.processed = acc.2.processed + 1 := by
  rcases acc with ⟨db, res⟩
  simp only [retryOne]
  cases hw : db.wallets.find? (fun x => decide (x.external_user_id = rec.user_id)) with
  | none => rfl
  | some w =>
      cases hg : gw.transfer rec.amount with
      | ok tid => rfl
      | err code msg => rfl

/-- The batch fold processes exactly one record per element of its page. -/
theorem retry_foldl_processed (gw : Gateway) :
    ∀ (l : List FailedPayout) (acc : DB × RetryResults),
      (l.foldl (retryOne gw) acc).2.processed = acc.2.processed + l.length := by
  intro l
  induction l with
  | nil => intro acc; simp
  | cons a l ih =>
      intro acc
      rw [List.foldl_cons, ih (retryOne gw acc a), retryOne_processed]
      simp only [List.length_cons]
      omega

/-- retryPayouts always processes a bounded batch of at most 50 records. -/
theorem retryPayouts_processed_le (gw : Gateway) (db : DB) :
    (retryPayouts gw db).2.processed ≤ 50 := by
  unfold retryPayouts
  rw [retry_foldl_processed, List.length_take]
  show 0 + min 50 ((db.failedPayouts.filter (fun f => decide (f.status = "PENDING"))).length) ≤ 50
  omega

/-- Claim C7 as amended: one retryPayouts pass over two PENDING Failure
Records, re-invoking the gateway with each record's stored amount (the
wallets hold zero, the outcome depends only on the stored amount): the record
whose transfer now succeeds is marked SUCCESS with its retry count untouched
— but no payout audit record is persisted, the transfer id is only returned
in the batch results — while the still-failing record gets retry_count
incremented, refreshed error fields, and stays PENDING; every pass processes
a bounded batch of at most 50 records. -/
theorem claim_C7 (a1 a2 : Amount) (n1 n2 : Nat) (tid c m : String)
    (gw : Gateway) (hg1 : gw.transfer a1 = .ok tid)
    (hg2 : gw.transfer a2 = .err c m) :
    ((retryPayouts gw (retryDB a1 a2 n1 n2)).1.failedPayouts =
      [{ id := 10, task_id := "tA", user_id := "uA",
         stripe_connect_account_id := "acctA", amount := a1, currency := "USD",
         error_code := "card_declined", last_error_message := "m1",
         status := "SUCCESS", retry_count := n1 },
       { id := 11, task_id := "tB", user_id := "uB",
         stripe_connect_account_id := "acctB", amount := a2, currency := "USD",
         error_code := c, last_error_message := m,
         status := "PENDING", retry_count := n2 + 1 }]) ∧
    ((retryPayouts gw (retryDB a1 a2 n1 n2)).1.payouts = []) ∧
    ((retryPayouts gw (retryDB a1 a2 n1 n2)).2 =
      { processed := 2, success := 1, failed := 1 }) ∧
    (∀ (gw2 : Gateway) (db2 : DB), (retryPayouts gw2 db2).2.processed ≤ 50) := by
  have e0 : retryPayouts gw (retryDB a1 a2 n1 n2) =
      retryOne gw
        (retryOne gw (retryDB a1 a2 n1 n2,
          { processed := 0, success := 0, failed := 0 })
          { id := 10, task_id := "tA", user_id := "uA",
            stripe_connect_account_id := "acctA", amount := a1, currency := "USD",
            error_code := "card_declined", last_error_message := "m1",
            status := "PENDING", retry_count := n1 })
        { id := 11, task_id := "tB", user_id := "uB",
          stripe_connect_account_id := "acctB", amount := a2, currency := "USD",
          error_code := "card_declined", last_error_message := "m2",
          status := "PENDING", retry_count := n2 } := rfl
  have h1 : retryOne gw (retryDB a1 a2 n1 n2,
        { processed := 0, success := 0, failed := 0 })
        { id := 10, task_id := "tA", user_id := "uA",
          stripe_connect_account_id := "acctA", amount := a1, currency := "USD",
          error_code := "card_declined", last_error_message := "m1",
          status := "PENDING", retry_count := n1 } =
      (updateFailedPayoutById (retryDB a1 a2 n1 n2) 10
        (fun f => { f with status := "SUCCESS" }),
       { processed := 1, success := 1, failed := 0 }) :=
    retryOne_eval_ok gw (retryDB a1 a2 n1 n2)
      { processed := 0, success := 0, failed := 0 }
      { id := 10, task_id := "tA", user_id := "uA",
        stripe_connect_account_id := "acctA", amount := a1, currency := "USD",
        error_code := "card_declined", last_error_message := "m1",
        status := "PENDING", retry_count := n1 }
      { id := 0, external_user_id := "uA", available_balance := 0,
        pending_balance := 0, escrow_balance := 0,
        stripe_account_id := some "acctA" } tid rfl hg1
  have h2 : retryOne gw (updateFailedPayoutById (retryDB a1 a2 n1 n2) 10
        (fun f => { f with status := "SUCCESS" }),
       { processed := 1, success := 1, failed := 0 })
        { id := 11, task_id := "tB", user_id := "uB",
          stripe_connect_account_id := "acctB", amount := a2, currency := "USD",
          error_code := "card_declined", last_error_message := "m2",
          status := "PENDING", retry_count := n2 } =
      (updateFailedPayoutById (updateFailedPayoutById (retryDB a1 a2 n1 n2) 10
          (fun f => { f with status := "SUCCESS" })) 11
        (fun f => { f with retry_count := f.retry_count + 1,
                           last_error_message := m, error_code := c }),
       { processed := 2, success := 1, failed := 1 }) :=
    retryOne_eval_err gw
      (updateFailedPayoutById (retryDB a1 a2 n1 n2) 10
        (fun f => { f with status := "SUCCESS" }))
      { processed := 1, success := 1, failed := 0 }
      { id := 11, task_id := "tB", user_id := "uB",
        stripe_connect_account_id := "acctB", amount := a2, currency := "USD",
        error_code := "card_declined", last_error_message := "m2",
        status := "PENDING", retry_count := n2 }
      { id := 1, external_user_id := "uB", available_balance := 0,
        pending_balance := 0, escrow_balance := 0,
        stripe_account_id := some "acctB" } c m rfl hg2
  rw [e0, h1, h2]
  exact ⟨rfl, rfl, rfl, fun gw2 db2 => retryPayouts_processed_le gw2 db2⟩

/-- Counterexample to claim C7 as stated: at the concrete two-record scenario
the now-succeeding record is marked SUCCESS, yet no payout audit record
exists for its task (payouts table stays empty), contradicting the claimed
"SUCCESS with an audit payout record". -/
theorem claim_C7_counterexample :
    failedPayoutById (retryPayouts gwC7 (retryDB 85 60 0 0)).1 10 =
      some { id := 10, task_id := "tA", user_id := "uA",
             stripe_connect_account_id := "acctA", amount := 85, currency := "USD",
             error_code := "card_declined", last_error_message := "m1",
             status := "SUCCESS", retry_count := 0 } ∧
    ¬ (payoutCountFor (retryPayouts gwC7 (retryDB 85 60 0 0)).1 "tA" = 1) ∧
    (retryPayouts gwC7 (retryDB 85 60 0 0)).1.payouts = [] :=
  ⟨by decide, by decide, by rfl⟩

/-- Witness for claim C7 at the concrete gateway: the stored amounts 85 and
60 with the transfer succeeding exactly at 85. -/
theorem claim_C7_witness :
    gwC7.transfer 85 = .ok "tr_r" ∧
    gwC7.transfer 60 = .err "card_declined" "still failing" ∧
    (retryPayouts gwC7 (retryDB 85 60 0 0)).1.payouts = [] :=
  ⟨by decide, by decide,
   (claim_C7 85 60 0 0 "tr_r" "card_declined" "still failing" gwC7
     (by decide) (by decide)).2.1⟩

end PaySpec

